import Mathlib

/-!
Verification development for the UDYAM registrations dashboard
(`dashboard.py`).  The Python source is shallowly embedded: pandas
column operations become per-row Lean functions over lists of records,
`json.loads` becomes an executable recursive-descent JSON reader, and
Python exceptions that can escape `parse_activities` become an
`Except` result.  All definitions are executable so that concrete
counterexamples and witnesses evaluate by `decide`/`rfl`.
-/

namespace Udyam

/-- Model of the values produced by Python's `json.loads`.  Integer
literals are kept exactly; literals with a fraction or exponent (and
the CPython extensions `NaN`/`Infinity`/`-Infinity`) are kept as their
lexeme in the `flt` constructor, since no claim depends on float
arithmetic or float formatting.  Objects keep their key/value pairs in
source order; lookups take the last binding, as a Python dict built
from a JSON object does. -/
inductive Json where
  | null
  | bool (b : Bool)
  | num (n : Int)
  | flt (lexeme : String)
  | str (s : String)
  | arr (elems : List Json)
  | obj (pairs : List (String × Json))

mutual

/-- Decidable equality for the nested `Json` inductive (the deriving
handler does not support nested occurrences). -/
def jsonDecEq : (a b : Json) → Decidable (a = b)
  | .null, .null => isTrue rfl
  | .bool a, .bool b =>
    if h : a = b then isTrue (by rw [h]) else isFalse (fun hh => h (by injection hh))
  | .num a, .num b =>
    if h : a = b then isTrue (by rw [h]) else isFalse (fun hh => h (by injection hh))
  | .flt a, .flt b =>
    if h : a = b then isTrue (by rw [h]) else isFalse (fun hh => h (by injection hh))
  | .str a, .str b =>
    if h : a = b then isTrue (by rw [h]) else isFalse (fun hh => h (by injection hh))
  | .arr l1, .arr l2 =>
    match jsonListDecEq l1 l2 with
    | isTrue h => isTrue (by rw [h])
    | isFalse h => isFalse (fun hh => h (by injection hh))
  | .obj p1, .obj p2 =>
    match jsonPairsDecEq p1 p2 with
    | isTrue h => isTrue (by rw [h])
    | isFalse h => isFalse (fun hh => h (by injection hh))
  | .null, .bool _ => isFalse (fun h => Json.noConfusion h)
  | .null, .num _ => isFalse (fun h => Json.noConfusion h)
  | .null, .flt _ => isFalse (fun h => Json.noConfusion h)
  | .null, .str _ => isFalse (fun h => Json.noConfusion h)
  | .null, .arr _ => isFalse (fun h => Json.noConfusion h)
  | .null, .obj _ => isFalse (fun h => Json.noConfusion h)
  | .bool _, .null => isFalse (fun h => Json.noConfusion h)
  | .bool _, .num _ => isFalse (fun h => Json.noConfusion h)
  | .bool _, .flt _ => isFalse (fun h => Json.noConfusion h)
  | .bool _, .str _ => isFalse (fun h => Json.noConfusion h)
  | .bool _, .arr _ => isFalse (fun h => Json.noConfusion h)
  | .bool _, .obj _ => isFalse (fun h => Json.noConfusion h)
  | .num _, .null => isFalse (fun h => Json.noConfusion h)
  | .num _, .bool _ => isFalse (fun h => Json.noConfusion h)
  | .num _, .flt _ => isFalse (fun h => Json.noConfusion h)
  | .num _, .str _ => isFalse (fun h => Json.noConfusion h)
  | .num _, .arr _ => isFalse (fun h => Json.noConfusion h)
  | .num _, .obj _ => isFalse (fun h => Json.noConfusion h)
  | .flt _, .null => isFalse (fun h => Json.noConfusion h)
  | .flt _, .bool _ => isFalse (fun h => Json.noConfusion h)
  | .flt _, .num _ => isFalse (fun h => Json.noConfusion h)
  | .flt _, .str _ => isFalse (fun h => Json.noConfusion h)
  | .flt _, .arr _ => isFalse (fun h => Json.noConfusion h)
  | .flt _, .obj _ => isFalse (fun h => Json.noConfusion h)
  | .str _, .null => isFalse (fun h => Json.noConfusion h)
  | .str _, .bool _ => isFalse (fun h => Json.noConfusion h)
  | .str _, .num _ => isFalse (fun h => Json.noConfusion h)
  | .str _, .flt _ => isFalse (fun h => Json.noConfusion h)
  | .str _, .arr _ => isFalse (fun h => Json.noConfusion h)
  | .str _, .obj _ => isFalse (fun h => Json.noConfusion h)
  | .arr _, .null => isFalse (fun h => Json.noConfusion h)
  | .arr _, .bool _ => isFalse (fun h => Json.noConfusion h)
  | .arr _, .num _ => isFalse (fun h => Json.noConfusion h)
  | .arr _, .flt _ => isFalse (fun h => Json.noConfusion h)
  | .arr _, .str _ => isFalse (fun h => Json.noConfusion h)
  | .arr _, .obj _ => isFalse (fun h => Json.noConfusion h)
  | .obj _, .null => isFalse (fun h => Json.noConfusion h)
  | .obj _, .bool _ => isFalse (fun h => Json.noConfusion h)
  | .obj _, .num _ => isFalse (fun h => Json.noConfusion h)
  | .obj _, .flt _ => isFalse (fun h => Json.noConfusion h)
  | .obj _, .str _ => isFalse (fun h => Json.noConfusion h)
  | .obj _, .arr _ => isFalse (fun h => Json.noConfusion h)

def jsonListDecEq : (a b : List Json) → Decidable (a = b)
  | [], [] => isTrue rfl
  | [], _ :: _ => isFalse (fun h => List.noConfusion h)
  | _ :: _, [] => isFalse (fun h => List.noConfusion h)
  | x :: xs, y :: ys =>
    match jsonDecEq x y with
    | isFalse h => isFalse (fun hh => h (by injection hh))
    | isTrue h1 =>
      match jsonListDecEq xs ys with
      | isTrue h2 => isTrue (by rw [h1, h2])
      | isFalse h2 => isFalse (fun hh => h2 (by injection hh))

def jsonPairsDecEq : (a b : List (String × Json)) → Decidable (a = b)
  | [], [] => isTrue rfl
  | [], _ :: _ => isFalse (fun h => List.noConfusion h)
  | _ :: _, [] => isFalse (fun h => List.noConfusion h)
  | (k1, v1) :: xs, (k2, v2) :: ys =>
    if hk : k1 = k2 then
      match jsonDecEq v1 v2 with
      | isFalse h => isFalse (fun hh => h (by injection hh with h1 h2; exact congrArg Prod.snd h1))
      | isTrue h1 =>
        match jsonPairsDecEq xs ys with
        | isTrue h2 => isTrue (by rw [hk, h1, h2])
        | isFalse h2 => isFalse (fun hh => h2 (by injection hh))
    else
      isFalse (fun hh => hk (by injection hh with h1 h2; exact congrArg Prod.fst h1))

end

instance : DecidableEq Json := jsonDecEq

/-- Whitespace characters accepted between JSON tokens (RFC 8259 /
CPython `json`). -/
def isJsonWs (c : Char) : Bool :=
  c == ' ' || c == '\t' || c == '\n' || c == '\r'

/-- Drop leading JSON whitespace. -/
def skipWs : List Char → List Char
  | [] => []
  | c :: cs => if isJsonWs c then skipWs cs else c :: cs

def isDigitChar (c : Char) : Bool := '0' ≤ c && c ≤ '9'

/-- Value of one hexadecimal digit (both letter cases), for `\uXXXX`
string escapes. -/
def hexVal (c : Char) : Option Nat :=
  let n := c.toNat
  if 48 ≤ n && n ≤ 57 then some (n - 48)
  else if 97 ≤ n && n ≤ 102 then some (n - 87)
  else if 65 ≤ n && n ≤ 70 then some (n - 55)
  else none

def digitsToNat (ds : List Char) : Nat :=
  ds.foldl (fun a c => a * 10 + (c.toNat - '0'.toNat)) 0

/-- Table of the single-character JSON string escapes and what they
denote (backspace is code 8, form feed code 12). -/
def escTable : List (Char × Char) :=
  [('"', '"'), ('\\', '\\'), ('/', '/'), ('b', Char.ofNat 8), ('f', Char.ofNat 12),
   ('n', '\n'), ('r', '\r'), ('t', '\t')]

/-- Single-character JSON string escapes. -/
def escChar (c : Char) : Option Char := escTable.lookup c

/-- Read the body of a JSON string after the opening quote, returning
the decoded characters and the input remaining after the closing
quote.  Control characters below 0x20 are rejected (CPython strict
mode); `\uXXXX` becomes the character with that code (surrogate-pair
combination is not modelled — no claim exercises it). -/
def parseStrBody : Nat → List Char → Option (List Char × List Char)
  | 0, _ => none
  | _ + 1, [] => none
  | fuel + 1, c :: cs =>
    if c == '"' then some ([], cs)
    else if c == '\\' then
      match cs with
      | [] => none
      | e :: cs' =>
        if e == 'u' then
          match cs' with
          | h1 :: h2 :: h3 :: h4 :: cs'' =>
            match hexVal h1, hexVal h2, hexVal h3, hexVal h4 with
            | some a, some b, some c2, some d =>
              (parseStrBody fuel cs'').map
                (fun p => (Char.ofNat (((a * 16 + b) * 16 + c2) * 16 + d) :: p.1, p.2))
            | _, _, _, _ => none
          | _ => none
        else
          match escChar e with
          | some r => (parseStrBody fuel cs').map (fun p => (r :: p.1, p.2))
          | none => none
    else if c.toNat < 32 then none
    else (parseStrBody fuel cs).map (fun p => (c :: p.1, p.2))

/-- Read a JSON number per the RFC grammar (no leading zeros, optional
fraction and exponent).  An integer literal becomes `Json.num`; a
literal with fraction or exponent is kept as its lexeme in
`Json.flt`. -/
def parseNumber (cs : List Char) : Option (Json × List Char) :=
  let signAndRest : Bool × List Char :=
    match cs with
    | '-' :: rest => (true, rest)
    | _ => (false, cs)
  let neg := signAndRest.1
  let cs1 := signAndRest.2
  match cs1 with
  | [] => none
  | c :: rest =>
    let intAndRest : Option (List Char × List Char) :=
      if c == '0' then some (['0'], rest)
      else if isDigitChar c then
        some (c :: rest.takeWhile isDigitChar, rest.dropWhile isDigitChar)
      else none
    match intAndRest with
    | none => none
    | some (intPart, cs2) =>
      let fracAndRest : Option (List Char × List Char) :=
        match cs2 with
        | '.' :: r2 =>
          let fd := r2.takeWhile isDigitChar
          if fd.isEmpty then none else some ('.' :: fd, r2.dropWhile isDigitChar)
        | _ => some ([], cs2)
      match fracAndRest with
      | none => none
      | some (fracPart, cs3) =>
        let expAndRest : Option (List Char × List Char) :=
          match cs3 with
          | e :: r3 =>
            if e == 'e' || e == 'E' then
              let signedBody : List Char × List Char :=
                match r3 with
                | s :: r4 => if s == '+' || s == '-' then ([s], r4) else ([], r3)
                | [] => ([], r3)
              let ed := signedBody.2.takeWhile isDigitChar
              if ed.isEmpty then none
              else some (e :: signedBody.1 ++ ed, signedBody.2.dropWhile isDigitChar)
            else some ([], cs3)
          | [] => some ([], cs3)
        match expAndRest with
        | none => none
        | some (expPart, cs4) =>
          if fracPart.isEmpty && expPart.isEmpty then
            let v : Int := Int.ofNat (digitsToNat intPart)
            some (Json.num (if neg then -v else v), cs4)
          else
            let lexeme : List Char :=
              (if neg then ['-'] else []) ++ intPart ++ fracPart ++ expPart
            some (Json.flt ⟨lexeme⟩, cs4)

/-- Consume an exact literal. -/
def takeLit (lit cs : List Char) : Option (List Char) :=
  if lit.isPrefixOf cs then some (cs.drop lit.length) else none

mutual

/-- Read one JSON value (after optional whitespace).  `NaN`,
`Infinity` and `-Infinity` are accepted as CPython's `json` does. -/
def parseVal : Nat → List Char → Option (Json × List Char)
  | 0, _ => none
  | fuel + 1, cs =>
    match skipWs cs with
    | [] => none
    | c :: rest =>
      if c == 'n' then (takeLit ['u', 'l', 'l'] rest).map (fun r => (Json.null, r))
      else if c == 't' then (takeLit ['r', 'u', 'e'] rest).map (fun r => (Json.bool true, r))
      else if c == 'f' then (takeLit ['a', 'l', 's', 'e'] rest).map (fun r => (Json.bool false, r))
      else if c == 'N' then (takeLit ['a', 'N'] rest).map (fun r => (Json.flt "NaN", r))
      else if c == 'I' then
        (takeLit ['n', 'f', 'i', 'n', 'i', 't', 'y'] rest).map (fun r => (Json.flt "Infinity", r))
      else if c == '"' then
        (parseStrBody fuel rest).map (fun p => (Json.str ⟨p.1⟩, p.2))
      else if c == '[' then
        (parseArrElems fuel rest).map (fun p => (Json.arr p.1, p.2))
      else if c == '\x7b' then
        (parseObjMembers fuel rest).map (fun p => (Json.obj p.1, p.2))
      else if c == '-' && ['I', 'n', 'f', 'i', 'n', 'i', 't', 'y'].isPrefixOf rest then
        some (Json.flt "-Infinity", rest.drop 8)
      else if c == '-' || isDigitChar c then parseNumber (c :: rest)
      else none

/-- Elements of an array, entered right after `[`. -/
def parseArrElems : Nat → List Char → Option (List Json × List Char)
  | 0, _ => none
  | fuel + 1, cs =>
    match skipWs cs with
    | ']' :: rest => some ([], rest)
    | cs1 =>
      match parseVal fuel cs1 with
      | none => none
      | some (v, r) =>
        match parseArrTail fuel r with
        | none => none
        | some (vs, r') => some (v :: vs, r')

/-- Continuation of an array after at least one element. -/
def parseArrTail : Nat → List Char → Option (List Json × List Char)
  | 0, _ => none
  | fuel + 1, cs =>
    match skipWs cs with
    | ',' :: rest =>
      match parseVal fuel rest with
      | none => none
      | some (v, r) =>
        match parseArrTail fuel r with
        | none => none
        | some (vs, r') => some (v :: vs, r')
    | ']' :: rest => some ([], rest)
    | _ => none

/-- Members of an object, entered right after the opening brace. -/
def parseObjMembers : Nat → List Char → Option (List (String × Json) × List Char)
  | 0, _ => none
  | fuel + 1, cs =>
    match skipWs cs with
    | '\x7d' :: rest => some ([], rest)
    | cs1 =>
      match parseMember fuel cs1 with
      | none => none
      | some (kv, r) =>
        match parseObjTail fuel r with
        | none => none
        | some (kvs, r') => some (kv :: kvs, r')

/-- Continuation of an object after at least one member. -/
def parseObjTail : Nat → List Char → Option (List (String × Json) × List Char)
  | 0, _ => none
  | fuel + 1, cs =>
    match skipWs cs with
    | ',' :: rest =>
      match parseMember fuel rest with
      | none => none
      | some (kv, r) =>
        match parseObjTail fuel r with
        | none => none
        | some (kvs, r') => some (kv :: kvs, r')
    | '\x7d' :: rest => some ([], rest)
    | _ => none

/-- One `"key": value` member. -/
def parseMember : Nat → List Char → Option ((String × Json) × List Char)
  | 0, _ => none
  | fuel + 1, cs =>
    match skipWs cs with
    | '"' :: rest =>
      match parseStrBody fuel rest with
      | none => none
      | some (key, r1) =>
        match skipWs r1 with
        | ':' :: r2 =>
          match parseVal fuel r2 with
          | none => none
          | some (v, r3) => some ((⟨key⟩, v), r3)
        | _ => none
    | _ => none

end

/-- Model of `json.loads`: parse one value and require only whitespace
to remain.  `none` models `json.JSONDecodeError`.  The fuel bound
`2 * length + 8` exceeds the parser's consumption on any input (every
recursive step either consumes a character or descends one
bracket/element, each of which also consumes a character). -/
def jsonLoads (s : String) : Option Json :=
  match parseVal (2 * s.length + 8) s.toList with
  | some (v, rest) => if skipWs rest = [] then some v else none
  | none => none

/-! Python string and value helpers used by the loader. -/

/-- Escape a backslash or single quote, for Python `repr` of a string
rendered with single quotes. -/
def escapeSQ : List Char → List Char
  | [] => []
  | c :: rest =>
    if c == '\\' || c == '\'' then '\\' :: c :: escapeSQ rest else c :: escapeSQ rest

/-- Escape a backslash or double quote, for Python `repr` of a string
rendered with double quotes. -/
def escapeDQ : List Char → List Char
  | [] => []
  | c :: rest =>
    if c == '\\' || c == '"' then '\\' :: c :: escapeDQ rest else c :: escapeDQ rest

/-- Python `repr` of a string: single-quoted, except double-quoted
when the text contains a single quote and no double quote.  Escaping
of non-printable characters is not modelled (no claim exercises
it). -/
def pyReprStr (s : String) : String :=
  if s.toList.contains '\'' && !(s.toList.contains '"') then
    "\"" ++ ⟨escapeDQ s.toList⟩ ++ "\""
  else
    "'" ++ ⟨escapeSQ s.toList⟩ ++ "'"

mutual

/-- Python `repr` of a parsed JSON value (used by `str` on lists and
dicts).  For `flt` the stored lexeme stands in for CPython's float
formatting, which is outside the model; no claim depends on it. -/
def pyRepr : Json → String
  | .null => "None"
  | .bool true => "True"
  | .bool false => "False"
  | .num n => toString n
  | .flt lexeme => lexeme
  | .str s => pyReprStr s
  | .arr l => "[" ++ pyReprList l ++ "]"
  | .obj l => "\x7b" ++ pyReprPairs l ++ "\x7d"

def pyReprList : List Json → String
  | [] => ""
  | [v] => pyRepr v
  | v :: vs => pyRepr v ++ ", " ++ pyReprList vs

def pyReprPairs : List (String × Json) → String
  | [] => ""
  | [(k, v)] => pyReprStr k ++ ": " ++ pyRepr v
  | (k, v) :: rest => pyReprStr k ++ ": " ++ pyRepr v ++ ", " ++ pyReprPairs rest

end

/-- Python `str` of a parsed JSON value: a string is returned as is,
anything else through `repr`-style rendering (`None`, `True`, digit
strings, bracketed containers). -/
def pyStr : Json → String
  | .str s => s
  | v => pyRepr v

/-- Python `dict.get key default` on a dict built from JSON object
members: the last binding of a duplicated key wins. -/
def dictGet (pairs : List (String × Json)) (key : String) (dflt : Json) : Json :=
  (pairs.foldl (fun acc kv => if kv.1 == key then some kv.2 else acc) none).getD dflt

/-- Worker for `pyReplace`; matches the pattern leftmost and does not
rescan replacement text, as Python `str.replace` does.  The fuel is
the remaining input length, which bounds the recursion since every
step consumes at least one character. -/
def replaceAux (pat rep : List Char) : Nat → List Char → List Char
  | 0, s => s
  | _ + 1, [] => []
  | fuel + 1, c :: rest =>
    if pat.isPrefixOf (c :: rest) then
      rep ++ replaceAux pat rep fuel ((c :: rest).drop pat.length)
    else
      c :: replaceAux pat rep fuel rest

/-- Python `s.replace(pat, rep)` for a nonempty pattern (the loader
only replaces nonempty patterns). -/
def pyReplace (s pat rep : String) : String :=
  if pat.isEmpty then s
  else ⟨replaceAux pat.toList rep.toList s.toList.length s.toList⟩

/-- Worker for `pySplit`, accumulating the current field reversed. -/
def splitAux (sep : List Char) : Nat → List Char → List Char → List (List Char)
  | 0, acc, s => [acc.reverse ++ s]
  | _ + 1, acc, [] => [acc.reverse]
  | fuel + 1, acc, c :: rest =>
    if sep.isPrefixOf (c :: rest) then
      acc.reverse :: splitAux sep fuel [] ((c :: rest).drop sep.length)
    else
      splitAux sep fuel (c :: acc) rest

/-- Python `s.split(sep)` for a nonempty separator (the dashboard only
splits on a nonempty separator). -/
def pySplit (s sep : String) : List String :=
  if sep.isEmpty then [s]
  else (splitAux sep.toList (s.toList.length + 1) [] s.toList).map (fun cs => ⟨cs⟩)

/-- Python `s.strip()`. -/
def pyStrip (s : String) : String :=
  ⟨((s.toList.dropWhile Char.isWhitespace).reverse.dropWhile Char.isWhitespace).reverse⟩

/-- Python `s[:n]` on a string. -/
def pySlice (s : String) (n : Nat) : String := ⟨s.toList.take n⟩

/-- Python `str` applied to a dataframe cell of an object column read
from CSV: a present cell is a string and is returned as is, a missing
cell is the float `nan`, which `str` renders as the literal text
`nan`. -/
def strCell : Option String → String
  | some s => s
  | none => "nan"

/-- Exceptions that can escape `parse_activities` or the loader body;
`json.JSONDecodeError`, `TypeError` and `IndexError` never appear here
because the source catches them. -/
inductive PyExc where
  | keyError
  | attributeError
  | typeError
deriving DecidableEq

/-- Quote repair applied by `parse_activities` before `json.loads`:
doubled quotes collapse to one, then a quote before `[` and after `]`
is dropped with the bracket retained. -/
def cleanActivities (activities_str : String) : String :=
  pyReplace (pyReplace (pyReplace activities_str "\"\"" "\"") "\"[" "[") "]\"" "]"

/-- Embedding of `parse_activities` (dashboard.py lines 53–63).  The
source evaluates `data[0].get(...)` under
`except (json.JSONDecodeError, TypeError, IndexError)`:
* decode failure → caught → sentinel pair;
* `data` a list: empty → `IndexError`, caught; first element a dict →
  normal extraction; first element anything else → `AttributeError`
  from `.get`, uncaught;
* `data` a dict → `data[0]` raises `KeyError` (no key `0`), uncaught;
* `data` a string: empty → `IndexError`, caught; nonempty → `data[0]`
  is a one-character string whose `.get` raises `AttributeError`,
  uncaught;
* `data` a number, boolean or `None` → `data[0]` raises `TypeError`,
  caught → sentinel pair.
The description keeps its JSON type (the source does not stringify
it); the NIC code goes through `str`. -/
def parse_activities (activities_str : String) : Except PyExc (Json × String) :=
  let cleaned_str := cleanActivities activities_str
  match jsonLoads cleaned_str with
  | none => .ok (Json.str "Unspecified Activity", "00000")
  | some data =>
    match data with
    | .arr [] => .ok (Json.str "Unspecified Activity", "00000")
    | .arr (first :: _) =>
      match first with
      | .obj pairs =>
        .ok (dictGet pairs "Description" (Json.str "Unspecified Activity"),
             pyStr (dictGet pairs "NIC5DigitId" (Json.str "00000")))
      | _ => .error PyExc.attributeError
    | .obj _ => .error PyExc.keyError
    | .str s => if s.isEmpty then .ok (Json.str "Unspecified Activity", "00000")
                else .error PyExc.attributeError
    | _ => .ok (Json.str "Unspecified Activity", "00000")

instance {ε α : Type} [DecidableEq ε] [DecidableEq α] : DecidableEq (Except ε α) :=
  fun a b =>
    match a, b with
    | .ok x, .ok y =>
      if h : x = y then isTrue (by rw [h]) else isFalse (fun hh => h (by injection hh))
    | .error x, .error y =>
      if h : x = y then isTrue (by rw [h]) else isFalse (fun hh => h (by injection hh))
    | .ok _, .error _ => isFalse (fun h => Except.noConfusion h)
    | .error _, .ok _ => isFalse (fun h => Except.noConfusion h)

/-- Python string comparison, lexicographic on code points, modelled
through the character-list order. -/
def strLe (a b : String) : Prop := a.toList ≤ b.toList

instance : DecidableRel strLe := fun a b => (inferInstance : Decidable (a.toList ≤ b.toList))

instance : IsTotal String strLe := ⟨fun a b => le_total a.toList b.toList⟩

instance : IsTrans String strLe := ⟨fun _ _ _ h1 h2 => le_trans h1 h2⟩

/-- Model of `sorted(column.unique().tolist())`: distinct values in
ascending Python string order.  `unique` keeps first occurrences and
`dedup` keeps last ones, but the subsequent sort makes the two
agree. -/
def sortedUnique (l : List String) : List String :=
  List.insertionSort strLe l.dedup

/-! The loader (`load_and_process_data`, dashboard.py lines 36–107). -/

/-- The static 2-digit NIC section table (dashboard.py lines 19–32). -/
def NIC_SECTION_MAPPING : List (String × String) :=
  [("01", "Crop & Animal Production"), ("02", "Forestry and Logging"),
   ("10", "Manufacture of Food Products"), ("13", "Manufacture of Textiles"),
   ("14", "Manufacture of Wearing Apparel"), ("16", "Manufacture of Wood & Cork"),
   ("25", "Manufacture of Metal Products"), ("41", "Construction of Buildings"),
   ("43", "Specialised Construction"), ("45", "Motor Vehicle Trade/Repair"),
   ("46", "Wholesale Trade"), ("47", "Retail Trade"),
   ("49", "Land Transport"), ("55", "Accommodation"),
   ("56", "Food & Beverage Services"), ("62", "IT & Computer Programming"),
   ("68", "Real Estate Activities"), ("73", "Advertising & Market Research"),
   ("85", "Education"), ("86", "Human Health Activities"),
   ("96", "Other Personal Service Activities"),
   ("00", "Unspecified Section")]

/-- Line 71: `df['NIC5DigitId'].str[:2].replace('', '00')` — the
pandas `replace` substitutes the value `'00'` for cells exactly equal
to the empty string. -/
def nicSection (nic5 : String) : String :=
  if pySlice nic5 2 = "" then "00" else pySlice nic5 2

/-- Line 80: `df['NIC5DigitId'].str[:3].replace('', '000')`. -/
def nic3Digit (nic5 : String) : String :=
  if pySlice nic5 3 = "" then "000" else pySlice nic5 3

/-- Line 74: `map(NIC_SECTION_MAPPING).fillna('Other/Unmapped Section')`. -/
def nicSectionDesc (sec : String) : String :=
  (NIC_SECTION_MAPPING.lookup sec).getD "Other/Unmapped Section"

/-- One CSV row as it stands after the two vectorised coercions of
lines 47 and 50: `RegistrationDate` is the result of
`pd.to_datetime(..., format='%d/%m/%Y', errors='coerce')` (dates are
order-embedded into `Int`, `none` is `NaT`; the day/month/year text
format itself is not under any claim), and `Pincode` the result of
`pd.to_numeric(..., errors='coerce')` before `fillna/astype`.  A
missing `Activities`, `EnterpriseName` or `CommunicationAddress` cell
is `none` (a float `nan` in pandas). -/
structure RawRow where
  RegistrationDate : Option Int
  Pincode : Option Int
  Activities : Option String
  State : String
  District : String
  EnterpriseName : Option String
  CommunicationAddress : Option String
deriving DecidableEq

/-- A row after lines 50–84 (pincode stringified, activities parsed,
NIC columns derived, name and address blank-filled), before the
`dropna` of line 87. -/
structure ProcessedRow where
  RegistrationDate : Option Int
  Pincode : String
  State : String
  District : String
  EnterpriseName : String
  CommunicationAddress : String
  ActivityDescription : Json
  NIC5DigitId : String
  NIC_Section : String
  NIC_Section_Desc : String
  NIC_Section_Code_Desc : String
  NIC3DigitId : String
deriving DecidableEq

/-- A row of the normalized table: `dropna` has removed unparseable
dates and line 91 has added the `Industry_Suggestion` label. -/
structure Record where
  RegistrationDate : Int
  Pincode : String
  State : String
  District : String
  EnterpriseName : String
  CommunicationAddress : String
  ActivityDescription : Json
  NIC5DigitId : String
  NIC_Section : String
  NIC_Section_Desc : String
  NIC_Section_Code_Desc : String
  NIC3DigitId : String
  Industry_Suggestion : String
deriving DecidableEq

/-- Per-row normalization, lines 50–84.  `parse_activities` receives
`str(x)` of the raw cell; an exception it does not catch aborts the
whole load (the surrounding `try` only catches `FileNotFoundError`).
`NIC_Section_Code_Desc` is the string concatenation of line 77. -/
def processRow (row : RawRow) : Except PyExc ProcessedRow :=
  match parse_activities (strCell row.Activities) with
  | .error e => .error e
  | .ok parsed =>
    let nic := parsed.2
    let sec := nicSection nic
    let secDesc := nicSectionDesc sec
    .ok { RegistrationDate := row.RegistrationDate
          Pincode := toString (row.Pincode.getD 0)
          State := row.State
          District := row.District
          EnterpriseName := row.EnterpriseName.getD ""
          CommunicationAddress := row.CommunicationAddress.getD ""
          ActivityDescription := parsed.1
          NIC5DigitId := nic
          NIC_Section := sec
          NIC_Section_Desc := secDesc
          NIC_Section_Code_Desc := sec ++ " - " ++ secDesc
          NIC3DigitId := nic3Digit nic }

/-- Line 91 on a surviving row: `NIC3DigitId + ' - ' +
ActivityDescription` is a pandas string concatenation, which raises
`TypeError` when the description extracted from the JSON is not a
string. -/
def finalizeRow (d : Int) (p : ProcessedRow) : Except PyExc Record :=
  match p.ActivityDescription with
  | .str s =>
    .ok { RegistrationDate := d
          Pincode := p.Pincode
          State := p.State
          District := p.District
          EnterpriseName := p.EnterpriseName
          CommunicationAddress := p.CommunicationAddress
          ActivityDescription := p.ActivityDescription
          NIC5DigitId := p.NIC5DigitId
          NIC_Section := p.NIC_Section
          NIC_Section_Desc := p.NIC_Section_Desc
          NIC_Section_Code_Desc := p.NIC_Section_Code_Desc
          NIC3DigitId := p.NIC3DigitId
          Industry_Suggestion := p.NIC3DigitId ++ " - " ++ s }
  | _ => .error PyExc.typeError

/-- Apply a fallible per-row function down a list, stopping at the
first raised exception, as a vectorised pandas `apply` does. -/
def mapMExcept {α β : Type} (f : α → Except PyExc β) : List α → Except PyExc (List β)
  | [] => .ok []
  | x :: xs =>
    match f x with
    | .error e => .error e
    | .ok y =>
      match mapMExcept f xs with
      | .error e => .error e
      | .ok ys => .ok (y :: ys)

/-- The normalized table: per-row processing, the `dropna` on
`RegistrationDate` of line 87, then the suggestion column of
line 91. -/
def loadTable (rows : List RawRow) : Except PyExc (List Record) :=
  match mapMExcept processRow rows with
  | .error e => .error e
  | .ok processed =>
    let kept := processed.filterMap (fun p => p.RegistrationDate.map (fun d => (d, p)))
    mapMExcept (fun dp => finalizeRow dp.1 dp.2) kept

/-- Embedding of `load_and_process_data` (lines 36–107).  The input
file is `none` when the path does not resolve, in which case the
`FileNotFoundError` handler reports and returns an empty table with
empty suggestion lists; otherwise the parsed CSV rows.  The result
tuple is `(df, industry_suggestions, name_suggestions,
pincode_options, address_options)`. -/
def load_and_process_data (file : Option (List RawRow)) :
    Except PyExc (List Record × List String × List String × List String × List String) :=
  match file with
  | none => .ok ([], [], [], [], [])
  | some rows =>
    match loadTable rows with
    | .error e => .error e
    | .ok df =>
      .ok (df,
           sortedUnique (df.map (·.Industry_Suggestion)),
           sortedUnique (df.map (·.EnterpriseName)),
           sortedUnique (df.map (·.Pincode)),
           sortedUnique (df.map (·.CommunicationAddress)))

/-! The filter pipeline (dashboard.py lines 115–233). -/

/-- Lines 141–144: inclusive date-range filter. -/
def date_filtered_df (df : List Record) (start_date end_date : Int) : List Record :=
  df.filter (fun r =>
    decide (start_date ≤ r.RegistrationDate) && decide (r.RegistrationDate ≤ end_date))

/-- Lines 162–165: the `'All States'` sentinel passes everything
through, any other choice filters on equality. -/
def state_filtered_df (date_filtered : List Record) (selected_state : String) : List Record :=
  if selected_state = "All States" then date_filtered
  else date_filtered.filter (fun r => r.State == selected_state)

/-- Lines 180–184: same shape for the `'All Districts'` sentinel. -/
def district_filtered_df (state_filtered : List Record) (selected_district : String) :
    List Record :=
  if selected_district = "All Districts" then state_filtered
  else state_filtered.filter (fun r => r.District == selected_district)

/-- Lines 221–222: `if selected_pincode:` (empty list is falsy) then
`isin`. -/
def pincode_filter (filtered_df : List Record) (selected_pincode : List String) : List Record :=
  if selected_pincode.isEmpty then filtered_df
  else filtered_df.filter (fun r => selected_pincode.contains r.Pincode)

/-- Line 227: `item.split(' - ')[0].strip()` on a selected industry
label. -/
def extract_nic3 (item : String) : String :=
  pyStrip ((pySplit item " - ").headD "")

/-- Lines 225–228: extract the 3-digit codes from the selected labels,
then `isin` on `NIC3DigitId`. -/
def industry_filter (filtered_df : List Record) (selected_industry : List String) : List Record :=
  if selected_industry.isEmpty then filtered_df
  else
    let selected_nic3_codes := selected_industry.map extract_nic3
    filtered_df.filter (fun r => selected_nic3_codes.contains r.NIC3DigitId)

/-- Lines 232–233: `isin` on `EnterpriseName`. -/
def name_filter (filtered_df : List Record) (selected_enterprise_name : List String) :
    List Record :=
  if selected_enterprise_name.isEmpty then filtered_df
  else filtered_df.filter (fun r => selected_enterprise_name.contains r.EnterpriseName)

/-- Minimum of a list of dates, `none` on an empty list (pandas
`Series.min` gives `NaT` there; the dashboard reads it only on a
nonempty table). -/
def listMin : List Int → Option Int
  | [] => none
  | x :: xs => some (match listMin xs with | none => x | some m => min x m)

def listMax : List Int → Option Int
  | [] => none
  | x :: xs => some (match listMax xs with | none => x | some m => max x m)

/-- Line 129: default lower slider bound,
`df['RegistrationDate'].min()`. -/
def min_date (df : List Record) : Int :=
  (listMin (df.map (·.RegistrationDate))).getD 0

/-- Line 130: default upper slider bound. -/
def max_date (df : List Record) : Int :=
  (listMax (df.map (·.RegistrationDate))).getD 0

/-- The widget state of one interaction: the slider range and the six
filter selections. -/
structure Selections where
  date_range : Int × Int
  selected_state : String
  selected_district : String
  selected_industry : List String
  selected_enterprise_name : List String
  selected_pincode : List String
deriving DecidableEq

/-- Everything one interaction renders that the claims talk about: the
option lists offered by each widget, the intermediate filtered
frames, and the final working subset. -/
structure View where
  state_options : List String
  district_options : List String
  industry_options : List String
  name_options : List String
  pincode_options : List String
  date_filtered : List Record
  state_filtered : List Record
  district_filtered : List Record
  district_filter_applied : Bool
  filtered_df : List Record
deriving DecidableEq

/-- One pass through lines 115–233: the date filter, the state widget
(options from the date-filtered set), the district widget (options
from the state-filtered set), the name widget (options from the
district-filtered set), the industry and pincode widgets (options are
the load-time full-table suggestion lists), and the sequential final
filtering. -/
def buildView (df : List Record) (industry_suggestions pincode_options : List String)
    (sel : Selections) : View :=
  let dateF := date_filtered_df df sel.date_range.1 sel.date_range.2
  let stateF := state_filtered_df dateF sel.selected_state
  let districtF := district_filtered_df stateF sel.selected_district
  let afterPincode := pincode_filter districtF sel.selected_pincode
  let afterIndustry := industry_filter afterPincode sel.selected_industry
  { state_options := "All States" :: sortedUnique (dateF.map (·.State))
    district_options := "All Districts" :: sortedUnique (stateF.map (·.District))
    industry_options := industry_suggestions
    name_options := sortedUnique (districtF.map (·.EnterpriseName))
    pincode_options := pincode_options
    date_filtered := dateF
    state_filtered := stateF
    district_filtered := districtF
    district_filter_applied := sel.selected_district != "All Districts"
    filtered_df := name_filter afterIndustry sel.selected_enterprise_name }

/-- Top-level control flow, lines 110–233: load (memoization is
behaviourally transparent), `st.stop()` when the table is empty
(`none` result: nothing is rendered), otherwise build the view. -/
def runDashboard (file : Option (List RawRow)) (sel : Selections) :
    Except PyExc (Option View) :=
  match load_and_process_data file with
  | .error e => .error e
  | .ok res =>
    if res.1.isEmpty then .ok none
    else .ok (some (buildView res.1 res.2.1 res.2.2.2.1 sel))

/-- A view with nothing in it, used only to totalise `viewOf`. -/
def emptyView : View :=
  { state_options := [], district_options := [], industry_options := [],
    name_options := [], pincode_options := [],
    date_filtered := [], state_filtered := [], district_filtered := [],
    district_filter_applied := false, filtered_df := [] }

/-- Extract the rendered view from a dashboard run (for concrete
evaluations). -/
def viewOf : Except PyExc (Option View) → View
  | .ok (some v) => v
  | _ => emptyView

/-! The KPI of claim C9 (dashboard.py line 259). -/

/-- The `ActivityDescription` column as pandas prints it; on tables
whose descriptions are all strings (the only ones the mode claim is
about) this is exactly the stored description. -/
def activityColumn (df : List Record) : List String :=
  df.map (fun r => pyStr r.ActivityDescription)

/-- The count of the most frequent value. -/
def maxCount (col : List String) : Nat :=
  (col.dedup.map (fun v => col.count v)).foldr max 0

/-- Model of `Series.mode()` on a string column: the distinct values
attaining the maximal count, in ascending order (pandas sorts the
modal values). -/
def pandasMode (col : List String) : List String :=
  List.insertionSort strLe (col.dedup.filter (fun v => col.count v == maxCount col))

/-- Line 259: `mode().iloc[0]` on a nonempty column, `"No Activity"`
otherwise. -/
def top_activity_desc (filtered_df : List Record) : String :=
  match pandasMode (activityColumn filtered_df) with
  | m :: _ => m
  | [] => "No Activity"

/-! Concrete inputs used by counterexamples and witnesses. -/

/-- A well-formed activities payload as it reaches `parse_activities`
after pandas CSV unquoting. -/
def bakeryActivities : String :=
  "[\x7b\"Description\": \"Bakery\", \"NIC5DigitId\": \"10710\"\x7d]"

def softwareActivities : String :=
  "[\x7b\"Description\": \"Software\", \"NIC5DigitId\": \"62011\"\x7d]"

/-- A payload whose `NIC5DigitId` is the empty string: the four
consecutive quote characters collapse under the doubled-quote repair
to a JSON empty string. -/
def emptyNicActivities : String := "[\x7b\"NIC5DigitId\": \"\"\"\"\x7d]"

/-- A payload whose `NIC5DigitId` has seven characters. -/
def longNicActivities : String := "[\x7b\"NIC5DigitId\": \"1234567\"\x7d]"

def sampleRow1 : RawRow :=
  { RegistrationDate := some 20230110, Pincode := some 411001,
    Activities := some bakeryActivities, State := "Maharashtra", District := "Pune",
    EnterpriseName := some "Alpha Bakers", CommunicationAddress := some "MG Road" }

def sampleRow2 : RawRow :=
  { RegistrationDate := some 20230215, Pincode := some 560001,
    Activities := some softwareActivities, State := "Karnataka",
    District := "Bengaluru Urban",
    EnterpriseName := some "Beta Soft", CommunicationAddress := some "Church Street" }

def sampleRaw : List RawRow := [sampleRow1, sampleRow2]

def emptyNicRow : RawRow :=
  { RegistrationDate := some 20230401, Pincode := some 400001,
    Activities := some emptyNicActivities, State := "Maharashtra", District := "Mumbai",
    EnterpriseName := some "Gamma", CommunicationAddress := some "Fort" }

def longNicRow : RawRow :=
  { RegistrationDate := some 20230402, Pincode := some 400002,
    Activities := some longNicActivities, State := "Maharashtra", District := "Mumbai",
    EnterpriseName := some "Delta", CommunicationAddress := some "Fort" }

/-- Selections with the date range open, one state chosen, and every
other stage left at its pass-through default. -/
def sampleSel : Selections :=
  { date_range := (20230101, 20231231), selected_state := "Maharashtra",
    selected_district := "All Districts", selected_industry := [],
    selected_enterprise_name := [], selected_pincode := [] }

def defaultRecord : Record :=
  { RegistrationDate := 0, Pincode := "", State := "", District := "",
    EnterpriseName := "", CommunicationAddress := "",
    ActivityDescription := Json.null, NIC5DigitId := "", NIC_Section := "",
    NIC_Section_Desc := "", NIC_Section_Code_Desc := "", NIC3DigitId := "",
    Industry_Suggestion := "" }

/-- First record of a load result (for concrete evaluations). -/
def firstRecOf (r : Except PyExc (List Record)) : Record :=
  match r with
  | .ok (rec :: _) => rec
  | _ => defaultRecord

/-- The table of a load result (for concrete evaluations). -/
def okListOf (r : Except PyExc (List Record)) : List Record :=
  match r with
  | .ok l => l
  | .error _ => []

/-- A record carrying just an activity description (for concrete mode
computations). -/
def descRec (s : String) : Record :=
  { defaultRecord with ActivityDescription := Json.str s }

/-- A record in the 3-digit subgroup 107 whose description does not
mention bakeries. -/
def hotelRec : Record :=
  { defaultRecord with NIC3DigitId := "107", ActivityDescription := Json.str "Hotel" }

/-- A record outside subgroup 107 whose description is the very word
of the selected label. -/
def bakeryRec108 : Record :=
  { defaultRecord with NIC3DigitId := "108", ActivityDescription := Json.str "Bakery" }

/-- A record registered on 2023-01-15 (dates are order-embedded as
`yyyymmdd` integers). -/
def janRec : Record := { defaultRecord with RegistrationDate := 20230115 }

/-- A record registered on 2023-02-01. -/
def febRec : Record := { defaultRecord with RegistrationDate := 20230201 }

/-- A table with the descriptions `b, b, a, a`: both values are tied
for the highest count. -/
def modeExample : List Record :=
  [descRec "b", descRec "b", descRec "a", descRec "a"]

/-- A raw row whose `Activities` cell is missing. -/
def nanRow : RawRow :=
  { RegistrationDate := some 20230501, Pincode := some 110001, Activities := none,
    State := "Delhi", District := "New Delhi", EnterpriseName := none,
    CommunicationAddress := none }

/-! Helper lemmas about the embedding. -/

theorem mapMExcept_ok_mem {α β : Type} (f : α → Except PyExc β) :
    ∀ (l : List α) (ys : List β), mapMExcept f l = .ok ys →
      ∀ y ∈ ys, ∃ x ∈ l, f x = .ok y := by
  intro l
  induction l with
  | nil =>
    intro ys h y hy
    have hys : ([] : List β) = ys := by injection h
    subst hys
    cases hy
  | cons a as ih =>
    intro ys h y hy
    rw [show mapMExcept f (a :: as) =
          (match f a with
           | .error e => .error e
           | .ok yy =>
             match mapMExcept f as with
             | .error e => .error e
             | .ok yys => .ok (yy :: yys)) from rfl] at h
    cases hfa : f a with
    | error e => rw [hfa] at h; exact Except.noConfusion h
    | ok b =>
      rw [hfa] at h
      cases hrest : mapMExcept f as with
      | error e => rw [hrest] at h; exact Except.noConfusion h
      | ok bs =>
        rw [hrest] at h
        have hys : b :: bs = ys := by injection h
        subst hys
        rcases List.mem_cons.mp hy with hyb | hybs
        · exact ⟨a, List.mem_cons_self a as, by rw [hfa, hyb]⟩
        · rcases ih bs hrest y hybs with ⟨x, hx, hfx⟩
          exact ⟨x, List.mem_cons_of_mem a hx, hfx⟩

theorem processRow_shape (row : RawRow) (p : ProcessedRow)
    (h : processRow row = .ok p) :
    p.NIC_Section = nicSection p.NIC5DigitId ∧
    p.NIC3DigitId = nic3Digit p.NIC5DigitId ∧
    p.NIC_Section_Desc = nicSectionDesc p.NIC_Section ∧
    (jsonLoads (cleanActivities (strCell row.Activities)) = none →
      p.NIC5DigitId = "00000" ∧ p.ActivityDescription = Json.str "Unspecified Activity") := by
  unfold processRow at h
  cases hpa : parse_activities (strCell row.Activities) with
  | error e => rw [hpa] at h; exact Except.noConfusion h
  | ok pr =>
    rw [hpa] at h
    injection h with hp
    subst hp
    refine ⟨rfl, rfl, rfl, ?_⟩
    intro hnone
    have hsent : parse_activities (strCell row.Activities) =
        .ok (Json.str "Unspecified Activity", "00000") := by
      unfold parse_activities
      dsimp only
      rw [hnone]
    rw [hpa] at hsent
    have hpr : pr = (Json.str "Unspecified Activity", "00000") := by injection hsent
    subst hpr
    exact ⟨rfl, rfl⟩

theorem finalizeRow_shape (d : Int) (p : ProcessedRow) (rec : Record)
    (h : finalizeRow d p = .ok rec) :
    rec.NIC5DigitId = p.NIC5DigitId ∧ rec.NIC_Section = p.NIC_Section ∧
    rec.NIC3DigitId = p.NIC3DigitId ∧ rec.NIC_Section_Desc = p.NIC_Section_Desc := by
  unfold finalizeRow at h
  cases hd : p.ActivityDescription <;> rw [hd] at h <;>
    first
    | exact Except.noConfusion h
    | · injection h with hr
        subst hr
        exact ⟨rfl, rfl, rfl, rfl⟩

/-- Every record of the normalized table carries NIC columns derived
from its own `NIC5DigitId` by the source slice/replace/map
formulas. -/
theorem loadTable_mem_shape (rows : List RawRow) (df : List Record)
    (h : loadTable rows = .ok df) (rec : Record) (hrec : rec ∈ df) :
    rec.NIC_Section = nicSection rec.NIC5DigitId ∧
    rec.NIC3DigitId = nic3Digit rec.NIC5DigitId ∧
    rec.NIC_Section_Desc = nicSectionDesc rec.NIC_Section := by
  unfold loadTable at h
  cases hp : mapMExcept processRow rows with
  | error e => rw [hp] at h; exact Except.noConfusion h
  | ok processed =>
    rw [hp] at h
    rcases mapMExcept_ok_mem _ _ _ h rec hrec with ⟨dp, hdp, hfin⟩
    rcases List.mem_filterMap.mp hdp with ⟨p, hpmem, hmap⟩
    cases hreg : p.RegistrationDate with
    | none => rw [hreg] at hmap; exact Option.noConfusion hmap
    | some dd =>
      rw [hreg] at hmap
      have hdp2 : (dd, p) = dp := by injection hmap
      subst hdp2
      rcases mapMExcept_ok_mem _ _ _ hp p hpmem with ⟨row, _, hprow⟩
      rcases processRow_shape row p hprow with ⟨h1, h2, h3, _⟩
      rcases finalizeRow_shape dd p rec hfin with ⟨g1, g2, g3, g4⟩
      exact ⟨by rw [g2, g1, h1], by rw [g3, g1, h2], by rw [g4, g2, h3]⟩

theorem lookup_some_key_mem {β : Type} (l : List (String × β)) (a : String) (b : β)
    (h : l.lookup a = some b) : a ∈ l.map Prod.fst := by
  induction l with
  | nil => exact Option.noConfusion h
  | cons kv rest ih =>
    obtain ⟨k, v⟩ := kv
    by_cases hk : a = k
    · exact List.mem_cons.mpr (Or.inl hk)
    · rw [show ((k, v) :: rest).lookup a =
            (match a == k with
             | true => some v
             | false => rest.lookup a) from rfl,
          beq_false_of_ne hk] at h
      exact List.mem_cons.mpr (Or.inr (ih h))

theorem string_mk_eq_empty_iff (l : List Char) : (⟨l⟩ : String) = "" ↔ l = [] := by
  constructor
  · intro h
    exact congrArg String.toList h
  · intro h
    rw [h]

theorem nicSection_length (nic5 : String) :
    1 ≤ (nicSection nic5).length ∧ (nicSection nic5).length ≤ 2 := by
  by_cases h : pySlice nic5 2 = ""
  · simp only [nicSection, h, if_pos rfl]
    exact ⟨by decide, by decide⟩
  · simp only [nicSection, if_neg h]
    constructor
    · show 1 ≤ (nic5.toList.take 2).length
      have h1 : nic5.toList.take 2 ≠ [] :=
        fun hnil => h ((string_mk_eq_empty_iff _).mpr hnil)
      have h2 : (nic5.toList.take 2).length ≠ 0 :=
        fun hz => h1 (List.length_eq_zero.mp hz)
      omega
    · show (nic5.toList.take 2).length ≤ 2
      rw [List.length_take]
      omega

theorem nic3Digit_length (nic5 : String) :
    1 ≤ (nic3Digit nic5).length ∧ (nic3Digit nic5).length ≤ 3 := by
  by_cases h : pySlice nic5 3 = ""
  · simp only [nic3Digit, h, if_pos rfl]
    exact ⟨by decide, by decide⟩
  · simp only [nic3Digit, if_neg h]
    constructor
    · show 1 ≤ (nic5.toList.take 3).length
      have h1 : nic5.toList.take 3 ≠ [] :=
        fun hnil => h ((string_mk_eq_empty_iff _).mpr hnil)
      have h2 : (nic5.toList.take 3).length ≠ 0 :=
        fun hz => h1 (List.length_eq_zero.mp hz)
      omega
    · show (nic5.toList.take 3).length ≤ 3
      rw [List.length_take]
      omega

theorem listMin_eq_none (l : List Int) (h : listMin l = none) : l = [] := by
  cases l with
  | nil => rfl
  | cons x xs => exact Option.noConfusion h

theorem listMin_le (l : List Int) (m : Int) (h : listMin l = some m) :
    ∀ x ∈ l, m ≤ x := by
  induction l generalizing m with
  | nil => exact Option.noConfusion h
  | cons y ys ih =>
    intro x hx
    rw [show listMin (y :: ys) =
          some (match listMin ys with | none => y | some mm => min y mm) from rfl] at h
    cases hys : listMin ys with
    | none =>
      have hnil : ys = [] := listMin_eq_none ys hys
      subst hnil
      rw [hys] at h
      have hm : y = m := by injection h
      subst hm
      rcases List.mem_cons.mp hx with hxy | hxys
      · rw [hxy]
      · cases hxys
    | some my =>
      rw [hys] at h
      have hm : min y my = m := by injection h
      subst hm
      rcases List.mem_cons.mp hx with hxy | hxys
      · rw [hxy]; exact min_le_left y my
      · exact le_trans (min_le_right y my) (ih my hys x hxys)

theorem listMax_eq_none (l : List Int) (h : listMax l = none) : l = [] := by
  cases l with
  | nil => rfl
  | cons x xs => exact Option.noConfusion h

theorem le_listMax (l : List Int) (m : Int) (h : listMax l = some m) :
    ∀ x ∈ l, x ≤ m := by
  induction l generalizing m with
  | nil => exact Option.noConfusion h
  | cons y ys ih =>
    intro x hx
    rw [show listMax (y :: ys) =
          some (match listMax ys with | none => y | some mm => max y mm) from rfl] at h
    cases hys : listMax ys with
    | none =>
      have hnil : ys = [] := listMax_eq_none ys hys
      subst hnil
      rw [hys] at h
      have hm : y = m := by injection h
      subst hm
      rcases List.mem_cons.mp hx with hxy | hxys
      · rw [hxy]
      · cases hxys
    | some my =>
      rw [hys] at h
      have hm : max y my = m := by injection h
      subst hm
      rcases List.mem_cons.mp hx with hxy | hxys
      · rw [hxy]; exact le_max_left y my
      · exact le_trans (ih my hys x hxys) (le_max_right y my)

theorem foldr_max_le (l : List Nat) : ∀ x ∈ l, x ≤ l.foldr max 0 := by
  induction l with
  | nil => intro x hx; cases hx
  | cons y ys ih =>
    intro x hx
    rcases List.mem_cons.mp hx with hxy | hxys
    · rw [hxy]; exact le_max_left y (ys.foldr max 0)
    · exact le_trans (ih x hxys) (le_max_right y (ys.foldr max 0))

theorem foldr_max_mem (l : List Nat) (h : l ≠ []) : l.foldr max 0 ∈ l := by
  induction l with
  | nil => exact absurd rfl h
  | cons y ys ih =>
    cases ys with
    | nil => simp
    | cons z zs =>
      rcases max_choice y (List.foldr max 0 (z :: zs)) with hm | hm
      · rw [List.foldr_cons, hm]
        exact List.mem_cons_self _ _
      · rw [List.foldr_cons, hm]
        exact List.mem_cons_of_mem _ (ih (List.cons_ne_nil z zs))

theorem maxCount_is_max (col : List String) (v : String) (hv : v ∈ col) :
    col.count v ≤ maxCount col :=
  foldr_max_le _ _ (List.mem_map.mpr ⟨v, List.mem_dedup.mpr hv, rfl⟩)

theorem maxCount_attained (col : List String) (h : col ≠ []) :
    ∃ v ∈ col, col.count v = maxCount col := by
  have hd : col.dedup ≠ [] := by
    intro hnil
    exact h ((List.dedup_eq_nil col).mp hnil)
  have hmapne : col.dedup.map (fun v => col.count v) ≠ [] := by
    intro hnil
    exact hd (List.map_eq_nil_iff.mp hnil)
  have hmem := foldr_max_mem _ hmapne
  rcases List.mem_map.mp hmem with ⟨v, hvd, hveq⟩
  exact ⟨v, List.mem_dedup.mp hvd, hveq⟩


theorem min_date_le (df : List Record) (hne : df ≠ []) (r : Record) (hr : r ∈ df) :
    min_date df ≤ r.RegistrationDate := by
  cases hmin : listMin (df.map (·.RegistrationDate)) with
  | none => exact absurd (List.map_eq_nil_iff.mp (listMin_eq_none _ hmin)) hne
  | some m =>
    have hmd : min_date df = m := by unfold min_date; rw [hmin]; rfl
    rw [hmd]
    exact listMin_le _ m hmin _ (List.mem_map.mpr ⟨r, hr, rfl⟩)

theorem le_max_date (df : List Record) (hne : df ≠ []) (r : Record) (hr : r ∈ df) :
    r.RegistrationDate ≤ max_date df := by
  cases hmax : listMax (df.map (·.RegistrationDate)) with
  | none => exact absurd (List.map_eq_nil_iff.mp (listMax_eq_none _ hmax)) hne
  | some m =>
    have hmd : max_date df = m := by unfold max_date; rw [hmax]; rfl
    rw [hmd]
    exact le_listMax _ m hmax _ (List.mem_map.mpr ⟨r, hr, rfl⟩)

/-! Theorems settling the claims. -/

/-- C1, counterexample.  The claim says every wrong-type payload
yields the sentinel pair, but a JSON object payload makes
`parse_activities` raise an uncaught `KeyError` (from `data[0]` on a
dict), and a nonempty JSON string payload an uncaught
`AttributeError` (from `.get` on a one-character string): the
exception does propagate. -/
theorem parse_activities_wrong_type_raises :
    parse_activities "\x7b\x7d" = .error PyExc.keyError ∧
    parse_activities "\"abc\"" = .error PyExc.attributeError :=
  ⟨rfl, rfl⟩

/-- C1, amended.  Full characterization of `parse_activities` on
failing payloads.  The sentinel pair is returned on every JSON decode
failure and on every caught-exception shape: an empty list
(`IndexError`), an empty string (`IndexError` from `""[0]`), and the
non-subscriptable top-level values number, float, boolean and null
(`TypeError`).  An exception escapes exactly on the three uncaught
shapes: a JSON object raises `KeyError`, a nonempty list whose first
element is not an object and a nonempty string raise
`AttributeError` — each such shape provably raises, and every raised
error comes from one of them. -/
theorem parse_activities_failure_modes (s : String) :
    (jsonLoads (cleanActivities s) = none →
      parse_activities s = .ok (Json.str "Unspecified Activity", "00000")) ∧
    (jsonLoads (cleanActivities s) = some (Json.arr []) →
      parse_activities s = .ok (Json.str "Unspecified Activity", "00000")) ∧
    (jsonLoads (cleanActivities s) = some (Json.str "") →
      parse_activities s = .ok (Json.str "Unspecified Activity", "00000")) ∧
    (∀ n, jsonLoads (cleanActivities s) = some (Json.num n) →
      parse_activities s = .ok (Json.str "Unspecified Activity", "00000")) ∧
    (∀ x, jsonLoads (cleanActivities s) = some (Json.flt x) →
      parse_activities s = .ok (Json.str "Unspecified Activity", "00000")) ∧
    (∀ b, jsonLoads (cleanActivities s) = some (Json.bool b) →
      parse_activities s = .ok (Json.str "Unspecified Activity", "00000")) ∧
    (jsonLoads (cleanActivities s) = some Json.null →
      parse_activities s = .ok (Json.str "Unspecified Activity", "00000")) ∧
    (∀ pairs, jsonLoads (cleanActivities s) = some (Json.obj pairs) →
      parse_activities s = .error PyExc.keyError) ∧
    (∀ first rest, jsonLoads (cleanActivities s) = some (Json.arr (first :: rest)) →
      (∀ pairs, first ≠ Json.obj pairs) →
      parse_activities s = .error PyExc.attributeError) ∧
    (∀ t, jsonLoads (cleanActivities s) = some (Json.str t) → t ≠ "" →
      parse_activities s = .error PyExc.attributeError) ∧
    (∀ e, parse_activities s = .error e →
      (∃ pairs, jsonLoads (cleanActivities s) = some (Json.obj pairs) ∧
        e = PyExc.keyError) ∨
      (∃ first rest, jsonLoads (cleanActivities s) = some (Json.arr (first :: rest)) ∧
        (∀ pairs, first ≠ Json.obj pairs) ∧ e = PyExc.attributeError) ∨
      (∃ t, jsonLoads (cleanActivities s) = some (Json.str t) ∧ t ≠ "" ∧
        e = PyExc.attributeError)) := by
  refine ⟨?_, ?_, ?_, ?_, ?_, ?_, ?_, ?_, ?_, ?_, ?_⟩
  · intro h
    unfold parse_activities
    dsimp only
    rw [h]
  · intro h
    unfold parse_activities
    dsimp only
    rw [h]
  · intro h
    unfold parse_activities
    dsimp only
    rw [h]
    exact rfl
  · intro n h
    unfold parse_activities
    dsimp only
    rw [h]
  · intro x h
    unfold parse_activities
    dsimp only
    rw [h]
  · intro b h
    unfold parse_activities
    dsimp only
    rw [h]
  · intro h
    unfold parse_activities
    dsimp only
    rw [h]
  · intro pairs h
    unfold parse_activities
    dsimp only
    rw [h]
  · intro first rest h hne
    unfold parse_activities
    dsimp only
    rw [h]
    cases first with
    | obj pairs => exact absurd rfl (hne pairs)
    | null => rfl
    | bool b => rfl
    | num n => rfl
    | flt x => rfl
    | str t => rfl
    | arr l => rfl
  · intro t h hne
    unfold parse_activities
    dsimp only
    rw [h]
    dsimp only
    rw [if_neg (fun hh => hne ((String.isEmpty_iff t).mp hh))]
  · intro e he
    unfold parse_activities at he
    dsimp only at he
    cases hj : jsonLoads (cleanActivities s) with
    | none => rw [hj] at he; exact Except.noConfusion he
    | some data =>
      rw [hj] at he
      cases data with
      | null => exact Except.noConfusion he
      | bool b => exact Except.noConfusion he
      | num n => exact Except.noConfusion he
      | flt x => exact Except.noConfusion he
      | str t =>
        by_cases ht : t.isEmpty = true
        · dsimp only at he
          rw [if_pos ht] at he
          exact Except.noConfusion he
        · dsimp only at he
          rw [if_neg ht] at he
          injection he with he2
          refine Or.inr (Or.inr ⟨t, rfl, ?_, he2.symm⟩)
          intro hteq
          exact ht (by rw [hteq]; rfl)
      | obj pairs =>
        injection he with he2
        exact Or.inl ⟨pairs, rfl, he2.symm⟩
      | arr l =>
        cases l with
        | nil => exact Except.noConfusion he
        | cons first rest =>
          cases first with
          | obj pairs => exact Except.noConfusion he
          | null =>
            injection he with he2
            exact Or.inr (Or.inl ⟨Json.null, rest, rfl,
              fun pairs hp => Json.noConfusion hp, he2.symm⟩)
          | bool b =>
            injection he with he2
            exact Or.inr (Or.inl ⟨Json.bool b, rest, rfl,
              fun pairs hp => Json.noConfusion hp, he2.symm⟩)
          | num n =>
            injection he with he2
            exact Or.inr (Or.inl ⟨Json.num n, rest, rfl,
              fun pairs hp => Json.noConfusion hp, he2.symm⟩)
          | flt x =>
            injection he with he2
            exact Or.inr (Or.inl ⟨Json.flt x, rest, rfl,
              fun pairs hp => Json.noConfusion hp, he2.symm⟩)
          | str t =>
            injection he with he2
            exact Or.inr (Or.inl ⟨Json.str t, rest, rfl,
              fun pairs hp => Json.noConfusion hp, he2.symm⟩)
          | arr l2 =>
            injection he with he2
            exact Or.inr (Or.inl ⟨Json.arr l2, rest, rfl,
              fun pairs hp => Json.noConfusion hp, he2.symm⟩)

/-- C1, witness for the amended theorem, applying it on one concrete
input per payload shape: undecodable text, empty list, empty string
(from the collapsed quadruple quote), number, float, boolean, null,
object, non-dict-first list, nonempty string. -/
theorem parse_activities_failure_modes_witness :
    parse_activities "abc" = .ok (Json.str "Unspecified Activity", "00000") ∧
    parse_activities "[]" = .ok (Json.str "Unspecified Activity", "00000") ∧
    parse_activities "\"\"\"\"" = .ok (Json.str "Unspecified Activity", "00000") ∧
    parse_activities "5" = .ok (Json.str "Unspecified Activity", "00000") ∧
    parse_activities "1.5" = .ok (Json.str "Unspecified Activity", "00000") ∧
    parse_activities "true" = .ok (Json.str "Unspecified Activity", "00000") ∧
    parse_activities "null" = .ok (Json.str "Unspecified Activity", "00000") ∧
    parse_activities "\x7b\"a\": 1\x7d" = .error PyExc.keyError ∧
    parse_activities "[5]" = .error PyExc.attributeError ∧
    parse_activities "\"xy\"" = .error PyExc.attributeError :=
  ⟨(parse_activities_failure_modes "abc").1 rfl,
   (parse_activities_failure_modes "[]").2.1 rfl,
   (parse_activities_failure_modes "\"\"\"\"").2.2.1 rfl,
   (parse_activities_failure_modes "5").2.2.2.1 5 rfl,
   (parse_activities_failure_modes "1.5").2.2.2.2.1 "1.5" rfl,
   (parse_activities_failure_modes "true").2.2.2.2.2.1 true rfl,
   (parse_activities_failure_modes "null").2.2.2.2.2.2.1 rfl,
   (parse_activities_failure_modes "\x7b\"a\": 1\x7d").2.2.2.2.2.2.2.1 [("a", Json.num 1)] rfl,
   (parse_activities_failure_modes "[5]").2.2.2.2.2.2.2.2.1 (Json.num 5) [] rfl
     (fun pairs hp => Json.noConfusion hp),
   (parse_activities_failure_modes "\"xy\"").2.2.2.2.2.2.2.2.2.1 "xy" rfl (by decide)⟩

/-- C2, counterexample.  With the sample table filtered to
Maharashtra, the pincode and industry widgets still offer the
full-table option lists, not the distinct values of the
district-filtered upstream output: the claim fails for these two
stages. -/
theorem stale_option_lists :
    (viewOf (runDashboard (some sampleRaw) sampleSel)).pincode_options ≠
      sortedUnique
        ((viewOf (runDashboard (some sampleRaw) sampleSel)).district_filtered.map
          (·.Pincode)) ∧
    (viewOf (runDashboard (some sampleRaw) sampleSel)).industry_options ≠
      sortedUnique
        ((viewOf (runDashboard (some sampleRaw) sampleSel)).district_filtered.map
          (·.Industry_Suggestion)) :=
  ⟨by decide, by decide⟩

/-- C2, amended.  State options are recomputed from the date-filtered
set, district options from the state-filtered set and enterprise-name
options from the district-filtered set, but the industry and pincode
widgets always offer the load-time full-table suggestion lists. -/
theorem option_list_provenance (df : List Record)
    (industry_suggestions pincode_options : List String) (sel : Selections) :
    (buildView df industry_suggestions pincode_options sel).state_options =
      "All States" ::
        sortedUnique
          ((date_filtered_df df sel.date_range.1 sel.date_range.2).map (·.State)) ∧
    (buildView df industry_suggestions pincode_options sel).district_options =
      "All Districts" ::
        sortedUnique
          ((state_filtered_df (date_filtered_df df sel.date_range.1 sel.date_range.2)
              sel.selected_state).map (·.District)) ∧
    (buildView df industry_suggestions pincode_options sel).name_options =
      sortedUnique
        ((district_filtered_df
            (state_filtered_df (date_filtered_df df sel.date_range.1 sel.date_range.2)
              sel.selected_state)
            sel.selected_district).map (·.EnterpriseName)) ∧
    (buildView df industry_suggestions pincode_options sel).industry_options =
      industry_suggestions ∧
    (buildView df industry_suggestions pincode_options sel).pincode_options =
      pincode_options :=
  ⟨rfl, rfl, rfl, rfl, rfl⟩

/-- C3.  Selecting the `All States`/`All Districts` sentinel, or
leaving a multi-choice selection empty, is the identity on the working
set, stage by stage; and a full pass with every stage at its
pass-through default returns exactly the date-filtered set. -/
theorem passthrough_law (df : List Record)
    (industry_suggestions pincode_options : List String) (dr : Int × Int) :
    state_filtered_df df "All States" = df ∧
    district_filtered_df df "All Districts" = df ∧
    pincode_filter df [] = df ∧
    industry_filter df [] = df ∧
    name_filter df [] = df ∧
    (buildView df industry_suggestions pincode_options
        { date_range := dr, selected_state := "All States",
          selected_district := "All Districts", selected_industry := [],
          selected_enterprise_name := [], selected_pincode := [] }).filtered_df
      = date_filtered_df df dr.1 dr.2 :=
  ⟨rfl, rfl, rfl, rfl, rfl, rfl⟩

/-- C4, counterexample.  A payload carrying an empty `NIC5DigitId`
survives normalization with `NIC5DigitId = ""`, and the `'' → '00'`
replacement makes `NIC_Section = "00"`, which is not a prefix of the
empty 5-digit code. -/
theorem nic_section_empty_code_cex :
    loadTable [emptyNicRow] = .ok [firstRecOf (loadTable [emptyNicRow])] ∧
    (firstRecOf (loadTable [emptyNicRow])).NIC5DigitId = "" ∧
    (firstRecOf (loadTable [emptyNicRow])).NIC_Section = "00" ∧
    (firstRecOf (loadTable [emptyNicRow])).NIC3DigitId = "000" ∧
    ¬ ((firstRecOf (loadTable [emptyNicRow])).NIC_Section.toList <+:
        (firstRecOf (loadTable [emptyNicRow])).NIC5DigitId.toList) :=
  ⟨rfl, rfl, rfl, rfl, by decide⟩

/-- C4, amended.  For every record of the normalized table: when
`NIC5DigitId` is nonempty, `NIC_Section` and `NIC3DigitId` are
prefixes of it; when it is empty they are the sentinels `00`/`000`
(and not prefixes); and `NIC_Section` is a key of
`NIC_SECTION_MAPPING` or its descriptive label is the
`Other/Unmapped Section` default. -/
theorem nic_code_hierarchy (rows : List RawRow) (df : List Record)
    (h : loadTable rows = .ok df) (rec : Record) (hrec : rec ∈ df) :
    (rec.NIC5DigitId ≠ "" →
      rec.NIC_Section.toList <+: rec.NIC5DigitId.toList ∧
      rec.NIC3DigitId.toList <+: rec.NIC5DigitId.toList) ∧
    (rec.NIC5DigitId = "" → rec.NIC_Section = "00" ∧ rec.NIC3DigitId = "000") ∧
    (rec.NIC_Section ∈ NIC_SECTION_MAPPING.map Prod.fst ∨
      rec.NIC_Section_Desc = "Other/Unmapped Section") := by
  rcases loadTable_mem_shape rows df h rec hrec with ⟨h1, h2, h3⟩
  refine ⟨?_, ?_, ?_⟩
  · intro hne
    have hlist : rec.NIC5DigitId.toList ≠ [] := by
      intro hz
      apply hne
      exact congrArg String.mk hz
    constructor
    · rw [h1]
      have hs : pySlice rec.NIC5DigitId 2 ≠ "" := by
        intro hz
        have ht : rec.NIC5DigitId.toList.take 2 = [] := (string_mk_eq_empty_iff _).mp hz
        rcases List.take_eq_nil_iff.mp ht with h2z | hlz
        · exact absurd h2z (by decide)
        · exact hlist hlz
      unfold nicSection
      rw [if_neg hs]
      exact ⟨rec.NIC5DigitId.toList.drop 2, List.take_append_drop 2 _⟩
    · rw [h2]
      have hs : pySlice rec.NIC5DigitId 3 ≠ "" := by
        intro hz
        have ht : rec.NIC5DigitId.toList.take 3 = [] := (string_mk_eq_empty_iff _).mp hz
        rcases List.take_eq_nil_iff.mp ht with h3z | hlz
        · exact absurd h3z (by decide)
        · exact hlist hlz
      unfold nic3Digit
      rw [if_neg hs]
      exact ⟨rec.NIC5DigitId.toList.drop 3, List.take_append_drop 3 _⟩
  · intro hem
    rw [h1, h2, hem]
    exact ⟨by decide, by decide⟩
  · cases hl : NIC_SECTION_MAPPING.lookup rec.NIC_Section with
    | some v => exact Or.inl (lookup_some_key_mem _ _ _ hl)
    | none =>
      refine Or.inr ?_
      rw [h3]
      unfold nicSectionDesc
      rw [hl]
      rfl

/-- C4, witness for the amended theorem: on the first sample record
(code `10710`) both derived codes are prefixes. -/
theorem nic_code_hierarchy_witness :
    (firstRecOf (loadTable sampleRaw)).NIC_Section.toList <+:
      (firstRecOf (loadTable sampleRaw)).NIC5DigitId.toList ∧
    (firstRecOf (loadTable sampleRaw)).NIC3DigitId.toList <+:
      (firstRecOf (loadTable sampleRaw)).NIC5DigitId.toList :=
  (nic_code_hierarchy sampleRaw (okListOf (loadTable sampleRaw)) rfl
    (firstRecOf (loadTable sampleRaw)) (by decide)).1 (by decide)

/-- C5, counterexample.  A payload whose `NIC5DigitId` value has seven
characters is stored verbatim: the code performs no fixed-width or
digit validation, so `NIC5DigitId` is not always a 5-digit string. -/
theorem nic5_width_cex :
    loadTable [longNicRow] = .ok [firstRecOf (loadTable [longNicRow])] ∧
    (firstRecOf (loadTable [longNicRow])).NIC5DigitId = "1234567" ∧
    (firstRecOf (loadTable [longNicRow])).NIC5DigitId.length ≠ 5 :=
  ⟨rfl, rfl, by decide⟩

/-- C5, amended.  The derived codes are the source's unvalidated
slices of the stringified payload value: `NIC_Section` and
`NIC3DigitId` are nonempty of length at most 2 and 3, and the
deterministic sentinel `00000` slices to exactly `00`/`000`; but
`NIC5DigitId` itself may have any length and content. -/
theorem nic_code_shape (rows : List RawRow) (df : List Record)
    (h : loadTable rows = .ok df) (rec : Record) (hrec : rec ∈ df) :
    rec.NIC_Section = nicSection rec.NIC5DigitId ∧
    rec.NIC3DigitId = nic3Digit rec.NIC5DigitId ∧
    (1 ≤ rec.NIC_Section.length ∧ rec.NIC_Section.length ≤ 2) ∧
    (1 ≤ rec.NIC3DigitId.length ∧ rec.NIC3DigitId.length ≤ 3) ∧
    (rec.NIC5DigitId = "00000" →
      rec.NIC_Section = "00" ∧ rec.NIC3DigitId = "000") := by
  rcases loadTable_mem_shape rows df h rec hrec with ⟨h1, h2, _⟩
  refine ⟨h1, h2, ?_, ?_, ?_⟩
  · rw [h1]; exact nicSection_length _
  · rw [h2]; exact nic3Digit_length _
  · intro h5
    rw [h1, h2, h5]
    exact ⟨by decide, by decide⟩

/-- C5, witness for the amended theorem, on the first sample
record. -/
theorem nic_code_shape_witness :
    (firstRecOf (loadTable sampleRaw)).NIC_Section =
      nicSection (firstRecOf (loadTable sampleRaw)).NIC5DigitId ∧
    (firstRecOf (loadTable sampleRaw)).NIC3DigitId =
      nic3Digit (firstRecOf (loadTable sampleRaw)).NIC5DigitId ∧
    (1 ≤ (firstRecOf (loadTable sampleRaw)).NIC_Section.length ∧
      (firstRecOf (loadTable sampleRaw)).NIC_Section.length ≤ 2) ∧
    (1 ≤ (firstRecOf (loadTable sampleRaw)).NIC3DigitId.length ∧
      (firstRecOf (loadTable sampleRaw)).NIC3DigitId.length ≤ 3) ∧
    ((firstRecOf (loadTable sampleRaw)).NIC5DigitId = "00000" →
      (firstRecOf (loadTable sampleRaw)).NIC_Section = "00" ∧
      (firstRecOf (loadTable sampleRaw)).NIC3DigitId = "000") :=
  nic_code_shape sampleRaw (okListOf (loadTable sampleRaw)) rfl
    (firstRecOf (loadTable sampleRaw)) (by decide)

/-- C6.  For a nonempty selection, the industry stage keeps exactly
the records whose `NIC3DigitId` is among the codes extracted from the
selected labels (text before the first ` - ` separator, stripped);
membership depends only on `NIC3DigitId`, never on the description. -/
theorem industry_filter_membership (df : List Record) (sel : List String)
    (h : sel ≠ []) (r : Record) :
    r ∈ industry_filter df sel ↔ r ∈ df ∧ r.NIC3DigitId ∈ sel.map extract_nic3 := by
  have hne : sel.isEmpty = false := by
    cases sel with
    | nil => exact absurd rfl h
    | cons a l => rfl
  simp [industry_filter, hne, List.mem_filter]

/-- C6, witness: selecting `107 - Bakery` keeps the record with
`NIC3DigitId = 107` described as `Hotel` and drops the record with
`NIC3DigitId = 108` described as `Bakery`. -/
theorem industry_filter_membership_witness :
    hotelRec ∈ industry_filter [hotelRec, bakeryRec108] ["107 - Bakery"] ∧
    bakeryRec108 ∉ industry_filter [hotelRec, bakeryRec108] ["107 - Bakery"] := by
  constructor
  · exact (industry_filter_membership [hotelRec, bakeryRec108] ["107 - Bakery"]
      (List.cons_ne_nil _ _) hotelRec).mpr ⟨List.mem_cons_self _ _, by decide⟩
  · intro hmem
    have h2 := (industry_filter_membership [hotelRec, bakeryRec108] ["107 - Bakery"]
      (List.cons_ne_nil _ _) bakeryRec108).mp hmem
    exact absurd h2.2 (by decide)

/-- C7.  The date stage keeps exactly the records whose registration
date lies in the selected range, both bounds inclusive; with the
default bounds (the data's minimum and maximum) every record is kept;
and on the concrete example the range 2023-01-01 to 2023-01-31 keeps
the record dated 2023-01-15 and drops the one dated 2023-02-01. -/
theorem date_range_filter :
    (∀ (df : List Record) (s e : Int) (r : Record),
      r ∈ date_filtered_df df s e ↔
        r ∈ df ∧ s ≤ r.RegistrationDate ∧ r.RegistrationDate ≤ e) ∧
    (∀ df : List Record, df ≠ [] →
      date_filtered_df df (min_date df) (max_date df) = df) ∧
    janRec ∈ date_filtered_df [janRec, febRec] 20230101 20230131 ∧
    febRec ∉ date_filtered_df [janRec, febRec] 20230101 20230131 := by
  refine ⟨?_, ?_, by decide, by decide⟩
  · intro df s e r
    simp [date_filtered_df, List.mem_filter, and_assoc]
  · intro df hne
    apply List.filter_eq_self.mpr
    intro r hr
    have h1 := min_date_le df hne r hr
    have h2 := le_max_date df hne r hr
    simp [h1, h2]

/-- C7, witness: the default-bounds pass-through evaluated on the
two-record example. -/
theorem date_range_filter_witness :
    date_filtered_df [janRec, febRec] (min_date [janRec, febRec])
      (max_date [janRec, febRec]) = [janRec, febRec] :=
  date_range_filter.2.1 [janRec, febRec] (List.cons_ne_nil _ _)

/-- C8.  When the input path does not resolve, the loader returns an
empty table and empty suggestion lists, and the caller, seeing the
empty table, stops: no view is rendered for any selection. -/
theorem missing_file_empty_halt (sel : Selections) :
    load_and_process_data none = .ok ([], [], [], [], []) ∧
    runDashboard none sel = .ok none :=
  ⟨rfl, rfl⟩

/-- C9.  On a nonempty table (with string-valued descriptions, the
only case the pandas mode model covers) the KPI value is a most
frequent description, and among values tied for the highest count it
is the first of the mode table's ascending order, that is the least
in Python string order. -/
theorem top_activity_mode (df : List Record) (hne : df ≠ [])
    (_hstr : ∀ r ∈ df, ∃ s, r.ActivityDescription = Json.str s) :
    top_activity_desc df ∈ activityColumn df ∧
    (∀ v ∈ activityColumn df,
      (activityColumn df).count v ≤ (activityColumn df).count (top_activity_desc df)) ∧
    (∀ v ∈ activityColumn df,
      (activityColumn df).count v = (activityColumn df).count (top_activity_desc df) →
        strLe (top_activity_desc df) v) := by
  have hcolne : activityColumn df ≠ [] := by
    intro hnil
    exact hne (List.map_eq_nil_iff.mp hnil)
  set col := activityColumn df with hcol
  rcases maxCount_attained col hcolne with ⟨v0, hv0, hv0c⟩
  have hv0f : v0 ∈ col.dedup.filter (fun v => col.count v == maxCount col) :=
    List.mem_filter.mpr ⟨List.mem_dedup.mpr hv0, beq_iff_eq.mpr hv0c⟩
  have hv0m : v0 ∈ pandasMode col := by
    unfold pandasMode
    exact ((List.perm_insertionSort strLe _).mem_iff).mpr hv0f
  cases hm : pandasMode col with
  | nil => rw [hm] at hv0m; cases hv0m
  | cons m rest =>
    have htop : top_activity_desc df = m := by
      unfold top_activity_desc
      rw [← hcol, hm]
    have hmm : m ∈ pandasMode col := by rw [hm]; exact List.mem_cons_self _ _
    have hmf : m ∈ col.dedup.filter (fun v => col.count v == maxCount col) := by
      unfold pandasMode at hmm
      exact ((List.perm_insertionSort strLe _).mem_iff).mp hmm
    have hmc : col.count m = maxCount col := beq_iff_eq.mp (List.mem_filter.mp hmf).2
    have hmcol : m ∈ col := List.mem_dedup.mp (List.mem_filter.mp hmf).1
    have hsorted : List.Sorted strLe (pandasMode col) := List.sorted_insertionSort strLe _
    rw [hm] at hsorted
    refine ⟨?_, ?_, ?_⟩
    · rw [htop]; exact hmcol
    · intro v hv
      rw [htop, hmc]
      exact maxCount_is_max col v hv
    · intro v hv hc
      rw [htop] at hc ⊢
      have hvf : v ∈ col.dedup.filter (fun w => col.count w == maxCount col) :=
        List.mem_filter.mpr ⟨List.mem_dedup.mpr hv, beq_iff_eq.mpr (by rw [hc, hmc])⟩
      have hvm : v ∈ pandasMode col := by
        unfold pandasMode
        exact ((List.perm_insertionSort strLe _).mem_iff).mpr hvf
      rw [hm] at hvm
      rcases List.mem_cons.mp hvm with hvm1 | hvm2
      · rw [hvm1]; exact le_refl m.toList
      · exact List.rel_of_sorted_cons hsorted v hvm2

/-- C9, witness: on the tied table `b, b, a, a` the theorem applies
(the KPI there is the sort-first modal value). -/
theorem top_activity_mode_witness :
    top_activity_desc modeExample ∈ activityColumn modeExample ∧
    (∀ v ∈ activityColumn modeExample,
      (activityColumn modeExample).count v ≤
        (activityColumn modeExample).count (top_activity_desc modeExample)) ∧
    (∀ v ∈ activityColumn modeExample,
      (activityColumn modeExample).count v =
          (activityColumn modeExample).count (top_activity_desc modeExample) →
        strLe (top_activity_desc modeExample) v) :=
  top_activity_mode modeExample (List.cons_ne_nil _ _) (by
    intro r hr
    rcases List.mem_cons.mp hr with h | hr2
    · exact ⟨"b", by rw [h]; rfl⟩
    rcases List.mem_cons.mp hr2 with h | hr3
    · exact ⟨"b", by rw [h]; rfl⟩
    rcases List.mem_cons.mp hr3 with h | hr4
    · exact ⟨"a", by rw [h]; rfl⟩
    rcases List.mem_cons.mp hr4 with h | hr5
    · exact ⟨"a", by rw [h]; rfl⟩
    · cases hr5)

/-- C10.  A missing `Activities` cell is stringified to the literal
text `nan`, which fails JSON decoding, so the row gets the sentinel
pair and all the sentinel-derived NIC columns, and `processRow` never
raises on it. -/
theorem missing_activities_sentinel (row : RawRow) (h : row.Activities = none) :
    strCell row.Activities = "nan" ∧
    jsonLoads (cleanActivities (strCell row.Activities)) = none ∧
    processRow row = .ok
      { RegistrationDate := row.RegistrationDate
        Pincode := toString (row.Pincode.getD 0)
        State := row.State
        District := row.District
        EnterpriseName := row.EnterpriseName.getD ""
        CommunicationAddress := row.CommunicationAddress.getD ""
        ActivityDescription := Json.str "Unspecified Activity"
        NIC5DigitId := "00000"
        NIC_Section := "00"
        NIC_Section_Desc := "Unspecified Section"
        NIC_Section_Code_Desc := "00 - Unspecified Section"
        NIC3DigitId := "000" } := by
  obtain ⟨d, pin, act, st, dist, en, ca⟩ := row
  have hact : act = none := h
  subst hact
  exact ⟨rfl, rfl, rfl⟩

/-- C10, witness: the concrete missing-activities row evaluates to the
sentinel record. -/
theorem missing_activities_sentinel_witness :
    strCell nanRow.Activities = "nan" ∧
    jsonLoads (cleanActivities (strCell nanRow.Activities)) = none ∧
    processRow nanRow = .ok
      { RegistrationDate := some 20230501
        Pincode := "110001"
        State := "Delhi"
        District := "New Delhi"
        EnterpriseName := ""
        CommunicationAddress := ""
        ActivityDescription := Json.str "Unspecified Activity"
        NIC5DigitId := "00000"
        NIC_Section := "00"
        NIC_Section_Desc := "Unspecified Section"
        NIC_Section_Code_Desc := "00 - Unspecified Section"
        NIC3DigitId := "000" } :=
  missing_activities_sentinel nanRow rfl

end Udyam
